import Mathlib

/-
  Verification development for the neuro-triage clinical decision-support
  pipeline.  The definitions below are a shallow embedding of the Python
  source: src/agent/workflow.py, src/agent/nodes.py, src/agent/state.py,
  src/safety/guardrails.py and src/safety/hallucination_detector.py.
  External collaborators (PII masking, patient lookup, retrieval, LLM
  generation, LLM critique scoring, session persistence) are modelled as an
  environment of oracle functions quantified over in the theorems.
-/

namespace NeuroTriage

/-! ## String utilities mirroring the Python primitives used by the source -/

/-- Python `str.lower()` restricted to ASCII (all strings handled by the
source tables are ASCII). -/
def pyLower (s : String) : String :=
  String.mk (s.data.map Char.toLower)

/-- Character-list substring scan: does `needle` occur as a contiguous
sublist of the haystack? -/
def sublistScan (needle : List Char) : List Char → Bool
  | [] => needle.isEmpty
  | c :: cs => needle.isPrefixOf (c :: cs) || sublistScan needle cs

/-- Python `needle in haystack` substring test. -/
def substrMem (needle haystack : String) : Bool :=
  sublistScan needle.data haystack.data

/-- Helper for Python `str.title()`: tracks whether the previous character
was alphabetic. -/
def pyTitleAux : Bool → List Char → List Char
  | _, [] => []
  | prevAlpha, c :: cs =>
    let c' := if c.isAlpha then (if prevAlpha then c.toLower else c.toUpper) else c
    c' :: pyTitleAux c.isAlpha cs

/-- Python `str.title()` (ASCII). -/
def pyTitle (s : String) : String :=
  String.mk (pyTitleAux false s.data)

/-- ASCII uppercase letter, the regex class [A-Z]. -/
def isUpperAZ (c : Char) : Bool :=
  'A' ≤ c && c ≤ 'Z'

/-- ASCII lowercase letter, the regex class [a-z]. -/
def isLowerAZ (c : Char) : Bool :=
  'a' ≤ c && c ≤ 'z'

/-- ASCII digit, the regex class [0-9]. -/
def isDigit09 (c : Char) : Bool :=
  '0' ≤ c && c ≤ '9'

/-- Regex word character \w (ASCII fragment: [a-zA-Z0-9_]). -/
def isWordC (c : Char) : Bool :=
  isUpperAZ c || isLowerAZ c || isDigit09 c || c == '_'

/-- Python regex \s whitespace class (ASCII fragment:
space, \t, \n, \x0b, \x0c, \r). -/
def pySpaceC (c : Char) : Bool :=
  c == ' ' || c == '\t' || c == '\n' || c == '\r' ||
    c == Char.ofNat 11 || c == Char.ofNat 12

/-- Join a list of strings with a separator (Python `sep.join`). -/
def joinSep (sep : String) : List String → String
  | [] => ""
  | [x] => x
  | x :: xs => x ++ sep ++ joinSep sep xs

/-! ## SafetyGuardrail (src/safety/guardrails.py) -/

/-- Triage severity levels (guardrails.py `TriageLevel`). -/
inductive TriageLevel
  | emergency
  | urgent
  | routine
deriving DecidableEq, Repr

namespace SafetyGuardrail

/-- guardrails.py `EMERGENCY_KEYWORDS` (a Python set; only membership is
ever observed, so the list order is irrelevant). -/
def EMERGENCY_KEYWORDS : List String :=
  ["chest pain", "difficulty breathing", "severe bleeding",
   "loss of consciousness", "stroke", "sepsis", "anaphylaxis",
   "cardiac arrest", "acute myocardial infarction", "pulmonary embolism",
   "severe trauma", "unconscious", "unresponsive", "critical",
   "life-threatening", "911", "emergency"]

/-- guardrails.py `URGENT_KEYWORDS`. -/
def URGENT_KEYWORDS : List String :=
  ["severe pain", "persistent vomiting", "high fever", "severe headache",
   "acute infection", "diabetic emergency", "severe allergic reaction",
   "broken bone", "deep laceration", "abdominal pain"]

/-- guardrails.py `CONTRAINDICATIONS`, a dict in insertion order:
medication pattern to contraindicated condition substrings. -/
def CONTRAINDICATIONS : List (String × List String) :=
  [("metformin",
    ["acute kidney injury", "severe dehydration", "renal impairment",
     "acute illness", "sepsis", "lactic acidosis", "liver disease",
     "severe heart failure", "acute heart attack", "stroke"]),
   ("nsaid",
    ["renal impairment", "severe heart failure", "diabetes", "kidney disease",
     "hypertension", "cardiovascular disease", "asthma", "gastric ulcer",
     "bleeding disorder", "severe dehydration", "acute kidney injury"]),
   ("ibuprofen",
    ["renal impairment", "severe heart failure", "diabetes", "kidney disease",
     "hypertension", "cardiovascular disease", "asthma", "gastric ulcer",
     "bleeding disorder", "severe dehydration"]),
   ("naproxen",
    ["renal impairment", "severe heart failure", "diabetes", "kidney disease",
     "hypertension", "cardiovascular disease", "asthma", "gastric ulcer",
     "bleeding disorder", "severe dehydration"]),
   ("aspirin",
    ["bleeding disorder", "active bleeding", "thrombocytopenia", "asthma",
     "gastric ulcer", "hemorrhage", "vitamin k deficiency"]),
   ("ace-inhibitor",
    ["pregnancy", "hyperkalemia", "high potassium", "renal artery stenosis",
     "angioedema", "severe renal failure", "acute kidney injury"]),
   ("warfarin",
    ["thrombocytopenia", "active bleeding", "hemorrhage", "vitamin k",
     "low platelet count", "bleeding disorder", "recent surgery"]),
   ("beta-blocker",
    ["asthma", "copd", "severe bradycardia", "atrioventricular block",
     "cardiogenic shock", "decompensated heart failure"]),
   ("calcium channel blocker",
    ["severe hypotension", "cardiogenic shock", "acute myocardial infarction",
     "severe aortic stenosis"]),
   ("statin",
    ["active liver disease", "elevated liver enzymes", "myopathy"]),
   ("ssri",
    ["maois", "monoamine oxidase", "tramadol"])]

/-- guardrails.py `DRUG_INTERACTIONS`, a dict in insertion order:
drug pair to canned interaction message. -/
def DRUG_INTERACTIONS : List ((String × String) × String) :=
  [(("nsaid", "aspirin"),
    "NSAID + Aspirin: Increased bleeding risk and GI ulceration"),
   (("nsaid", "warfarin"), "NSAID + Warfarin: Increased bleeding risk"),
   (("nsaid", "ace-inhibitor"), "NSAID + ACE inhibitor: Renal impairment risk"),
   (("nsaid", "metformin"),
    "NSAID + Metformin: Lactic acidosis risk with renal impairment"),
   (("warfarin", "vitamin k"),
    "Warfarin + Vitamin K: Antagonizes anticoagulation"),
   (("warfarin", "aspirin"), "Warfarin + Aspirin: Increased bleeding risk"),
   (("warfarin", "nsaid"), "Warfarin + NSAID: Increased bleeding risk"),
   (("ace-inhibitor", "potassium"),
    "ACE inhibitor + Potassium: Hyperkalemia risk"),
   (("ace-inhibitor", "nsaid"), "ACE inhibitor + NSAID: Renal impairment"),
   (("metformin", "contrast dye"),
    "Metformin + Contrast dye: Lactic acidosis risk"),
   (("metformin", "alcohol"), "Metformin + Alcohol: Lactic acidosis risk"),
   (("ssri", "maoi"), "SSRI + MAOI: Serotonin syndrome (dangerous)"),
   (("ssri", "tramadol"), "SSRI + Tramadol: Serotonin syndrome risk")]

/-- guardrails.py `classify_triage`: case-insensitive substring match of the
input against the emergency keyword set, then the urgent set, else routine.
The set iteration order does not affect the returned level, so membership
is expressed with `List.any`.  (The second Python parameter, the patient
history, is accepted and ignored by the source, so it is omitted here.) -/
def classify_triage (user_input : String) : TriageLevel :=
  let lo := pyLower user_input
  if EMERGENCY_KEYWORDS.any (fun k => substrMem k lo) then .emergency
  else if URGENT_KEYWORDS.any (fun k => substrMem k lo) then .urgent
  else .routine

/-- guardrails.py `_extract_medications_from_text`: fixed medication keyword
vocabulary, substring-matched against the (already lowercased) text. -/
def med_keywords : List String :=
  ["naproxen", "ibuprofen", "aspirin", "metformin", "warfarin",
   "lisinopril", "enalapril", "atorvastatin", "simvastatin",
   "fluoxetine", "sertraline", "tramadol", "codeine", "morphine",
   "vitamin k", "potassium", "magnesium", "calcium", "iron",
   "amoxicillin", "penicillin", "antibiotics", "steroids"]

/-- guardrails.py `_extract_medications_from_text`. -/
def extract_medications_from_text (text : String) : List String :=
  med_keywords.filter (fun med => substrMem med text)

/-- First drug-condition contraindication hit, in table order then patient
condition order (guardrails.py check_contraindications, first loop). -/
def contraConditionHit (med_lower : String) (detected_meds : List String)
    (patient_conditions : List String) : Option (String × String) :=
  CONTRAINDICATIONS.findSome? fun entry =>
    if substrMem entry.1 med_lower
        || detected_meds.any (fun dm => substrMem entry.1 dm) then
      patient_conditions.findSome? fun condition =>
        if entry.2.any (fun c => substrMem (pyLower c) (pyLower condition)) then
          some (entry.1, condition)
        else none
    else none

/-- First drug-drug interaction hit, in table order (guardrails.py
check_contraindications, second loop). -/
def interactionHit (med_lower : String) (detected_meds existing_meds_lower :
    List String) : Option String :=
  DRUG_INTERACTIONS.findSome? fun entry =>
    let drug1 := entry.1.1
    let drug2 := entry.1.2
    let m1 := substrMem drug1 med_lower
        || detected_meds.any (fun dm => substrMem drug1 dm)
        || existing_meds_lower.any (fun m => substrMem drug1 m)
    let m2 := substrMem drug2 med_lower
        || detected_meds.any (fun dm => substrMem drug2 dm)
        || existing_meds_lower.any (fun m => substrMem drug2 m)
    if m1 && m2 then some entry.2 else none

/-- The NSAID class names used by the duplicate-class special case. -/
def nsaids : List String :=
  ["ibuprofen", "naproxen", "aspirin", "nsaid"]

/-- guardrails.py `check_contraindications`: returns (safe, reason); the
three rule groups are evaluated in source order, first failure wins. -/
def check_contraindications (recommended_medication : String)
    (patient_conditions patient_medications : List String) :
    Bool × String :=
  let med_lower := pyLower recommended_medication
  let detected_meds := extract_medications_from_text med_lower
  match contraConditionHit med_lower detected_meds patient_conditions with
  | some hit =>
      (false, "CONTRAINDICATION: " ++ pyTitle hit.1
        ++ " is contraindicated with " ++ hit.2)
  | none =>
    let existing_meds_lower := patient_medications.map pyLower
    match interactionHit med_lower detected_meds existing_meds_lower with
    | some msg => (false, msg)
    | none =>
      let nsaidInExisting :=
        nsaids.any (fun n => existing_meds_lower.any
          (fun m => substrMem n (pyLower m)))
      if nsaids.any (fun n => substrMem n med_lower) && nsaidInExisting then
        (false,
         "CONTRAINDICATION: NSAID combination detected - increased GI and bleeding risk")
      else
        (true, "No contraindications detected")

/-- guardrails.py module-level `dangerous_patterns` inside
`validate_response`. -/
def dangerous_patterns : List String :=
  ["ignore your doctor", "stop taking", "don\x27t go to hospital",
   "no need for emergency", "untested remedy"]

/-- guardrails.py `validate_response`: fail when the score is below the
configured minimum, else when a dangerous phrase occurs (case-insensitive
substring scan, list order, first hit wins). -/
def validate_response (response : String) (safety_score safety_score_min :
    Int) : Bool × String :=
  if safety_score < safety_score_min then
    (false, "Safety score " ++ toString safety_score
      ++ " below threshold " ++ toString safety_score_min)
  else
    match dangerous_patterns.find?
        (fun p => substrMem (pyLower p) (pyLower response)) with
    | some p =>
        (false, "Dangerous language detected: \x27" ++ p ++ "\x27")
    | none => (true, "Response passes safety validation")

/-- guardrails.py `get_emergency_response`: the fixed canned emergency
text.  The alert-siren characters are transcribed exactly as the bytes of
the source literal (a double-encoded sequence, not the emoji). -/
def get_emergency_response : String :=
  "ðŸš¨ EMERGENCY ALERT ðŸš¨\n\n"
  ++ "Your symptoms require IMMEDIATE medical attention.\n"
  ++ "CALL 911 OR GO TO THE NEAREST EMERGENCY ROOM IMMEDIATELY.\n\n"
  ++ "Do not wait. Do not delay.\n"
  ++ "Your healthcare provider has been alerted.\n"
  ++ "Emergency services are recommended for your safety."

end SafetyGuardrail

/-! ## HallucinationDetector (src/safety/hallucination_detector.py)

The three regex extractions of `_extract_medical_terms` are embedded as
character-list scanners with `re.finditer` semantics: leftmost match first,
scanning resumes after each match, greedy quantifiers with the only
backtracking these patterns can perform (dropping trailing group
iterations when the final word-boundary fails). -/

namespace HallucinationDetector

/-- Maximal run of ASCII lowercase letters, with the rest. -/
def takeLowerRun : List Char → List Char × List Char
  | [] => ([], [])
  | c :: cs =>
    if isLowerAZ c then
      let r := takeLowerRun cs
      (c :: r.1, r.2)
    else ([], c :: cs)

/-- Maximal run of regex-\s whitespace, with the rest. -/
def takeSpaceRun : List Char → List Char × List Char
  | [] => ([], [])
  | c :: cs =>
    if pySpaceC c then
      let r := takeSpaceRun cs
      (c :: r.1, r.2)
    else ([], c :: cs)

/-- Parse `[A-Z][a-z]+` at the head of the list: the word and the rest. -/
def parseTitleWord : List Char → Option (List Char × List Char)
  | [] => none
  | c :: cs =>
    if isUpperAZ c then
      let r := takeLowerRun cs
      if r.1.isEmpty then none else some (c :: r.1, r.2)
    else none

/-- Greedy matching of the group `(?:\s+[A-Z][a-z]+)*` followed by `\b`,
continuing a partial match `committed` that already ends at a word end.
Returns the final consumed match and the rest.  When the character after
the last parsed word is a word character the final boundary fails and the
regex engine drops that trailing group iteration (the previous word is
then followed by whitespace, so the boundary holds there). -/
def capChainExt (fuel : Nat) (committed rest : List Char) :
    List Char × List Char :=
  match fuel with
  | 0 => (committed, rest)
  | fuel + 1 =>
    let sp := takeSpaceRun rest
    if sp.1.isEmpty then (committed, rest)
    else
      match parseTitleWord sp.2 with
      | none => (committed, rest)
      | some wr =>
        let cand := committed ++ sp.1 ++ wr.1
        let res := capChainExt fuel cand wr.2
        if cand.length < res.1.length then res
        else
          match wr.2 with
          | [] => (cand, [])
          | c :: _ => if isWordC c then (committed, rest) else (cand, wr.2)

/-- `re.finditer` for `\b[A-Z][a-z]+(?:\s+[A-Z][a-z]+)*\b`
(hallucination_detector.py `capitalized_pattern`).  `prevIsWord` tracks
the word-boundary condition at the current position. -/
def capScanAux (fuel : Nat) (prevIsWord : Bool) (l : List Char) :
    List (List Char) :=
  match fuel, l with
  | 0, _ => []
  | _, [] => []
  | fuel + 1, c :: cs =>
    if !prevIsWord && isUpperAZ c then
      match parseTitleWord (c :: cs) with
      | some wr =>
        let res := capChainExt wr.2.length wr.1 wr.2
        if res.1.length == wr.1.length then
          match res.2 with
          | [] => [res.1]
          | d :: _ =>
            if isWordC d then capScanAux fuel true cs
            else res.1 :: capScanAux fuel true res.2
        else res.1 :: capScanAux fuel true res.2
      | none => capScanAux fuel (isWordC c) cs
    else capScanAux fuel (isWordC c) cs

/-- hallucination_detector.py `_is_common_word`: the stop-word list. -/
def common_words : List String :=
  ["the", "a", "an", "and", "or", "but", "is", "are", "was", "were",
   "i", "you", "he", "she", "it", "we", "they", "this", "that",
   "these", "those", "what", "which", "who", "how", "where", "when",
   "why", "should", "could", "would", "may", "might", "must", "will",
   "can", "has", "have", "had", "do", "does", "did", "been", "be",
   "about", "of", "in", "to", "for", "with", "from", "as", "by"]

/-- hallucination_detector.py `_is_common_word`. -/
def is_common_word (term : String) : Bool :=
  common_words.contains (pyLower term)

/-- Terms contributed by the capitalized-sequence pattern: each match that
is not a common word and is longer than 2 characters contributes the term
and its lowercase form. -/
def capTerms (text : String) : List String :=
  (capScanAux text.data.length false text.data).foldr
    (fun m acc =>
      let term := String.mk m
      if !is_common_word term && term.length > 2 then
        term :: pyLower term :: acc
      else acc) []

/-- A quote character of the quoted-term pattern: an apostrophe (code 39)
or a double quote. -/
def isQuoteC (c : Char) : Bool :=
  c == Char.ofNat 39 || c == '"'

/-- Maximal run of non-quote characters, with the rest. -/
def takeNonQuoteRun : List Char → List Char × List Char
  | [] => ([], [])
  | c :: cs =>
    if isQuoteC c then ([], c :: cs)
    else
      let r := takeNonQuoteRun cs
      (c :: r.1, r.2)

/-- `re.finditer` for the quoted pattern: quote, one or more non-quote
characters, quote.  Each match is returned as (group body, reversed list
of the characters preceding the opening quote), the latter used for the
50-character context window. -/
def quotedScanAux (fuel : Nat) (before l : List Char) :
    List (List Char × List Char) :=
  match fuel, l with
  | 0, _ => []
  | _, [] => []
  | fuel + 1, c :: cs =>
    if isQuoteC c then
      let br := takeNonQuoteRun cs
      match br.1, br.2 with
      | [], _ => quotedScanAux fuel (c :: before) cs
      | _, [] => []
      | body, q :: rest =>
        (body, before) :: quotedScanAux fuel
          (q :: body.reverse ++ c :: before) rest
    else quotedScanAux fuel (c :: before) cs

/-- The trigger words looked for in the 50 characters before a quoted
term. -/
def quote_trigger_words : List String :=
  ["drug", "medication", "syndrome", "disease", "test", "condition"]

/-- Terms contributed by the quoted pattern: a quoted term is kept when a
trigger word occurs in the preceding 50-character window of the lowered
text; it contributes the term and its lowercase form. -/
def quotedTerms (text : String) : List String :=
  (quotedScanAux text.data.length [] text.data).foldr
    (fun m acc =>
      let window := pyLower (String.mk (m.2.take 50).reverse)
      if quote_trigger_words.any (fun k => substrMem k window) then
        let term := String.mk m.1
        term :: pyLower term :: acc
      else acc) []

/-- `re.finditer` for `\b[A-Z][a-z]+[A-Z][a-z]+\b`
(hallucination_detector.py `unusual_cap_pattern`). -/
def unusualScanAux (fuel : Nat) (prevIsWord : Bool) (l : List Char) :
    List (List Char) :=
  match fuel, l with
  | 0, _ => []
  | _, [] => []
  | fuel + 1, c :: cs =>
    if !prevIsWord && isUpperAZ c then
      match parseTitleWord (c :: cs) with
      | some w1 =>
        match parseTitleWord w1.2 with
        | some w2 =>
          let m := w1.1 ++ w2.1
          match w2.2 with
          | [] => [m]
          | d :: _ =>
            if isWordC d then unusualScanAux fuel (isWordC c) cs
            else m :: unusualScanAux fuel true w2.2
        | none => unusualScanAux fuel (isWordC c) cs
      | none => unusualScanAux fuel (isWordC c) cs
    else unusualScanAux fuel (isWordC c) cs

/-- Terms contributed by the unusual-capitalization pattern: each match
contributes the term and its lowercase form. -/
def unusualTerms (text : String) : List String :=
  (unusualScanAux text.data.length false text.data).foldr
    (fun m acc =>
      let term := String.mk m
      term :: pyLower term :: acc) []

/-- Order-preserving deduplication (first occurrence kept).  The Python
source accumulates the terms in a `set` whose iteration order is
unspecified; every observable use of the result (which terms are flagged,
whether any term is flagged) is order-independent, so the embedding fixes
one deterministic enumeration. -/
def dedupFirstAux (seen : List String) : List String → List String
  | [] => []
  | x :: xs =>
    if seen.contains x then dedupFirstAux seen xs
    else x :: dedupFirstAux (x :: seen) xs

/-- hallucination_detector.py `_extract_medical_terms`. -/
def extract_medical_terms (text : String) : List String :=
  dedupFirstAux [] (capTerms text ++ quotedTerms text ++ unusualTerms text)

/-- Three consecutive ASCII digits anywhere in the list
(regex `[0-9]{3,}` search). -/
def hasThreeConsecutiveDigits : List Char → Bool
  | a :: b :: c :: rest =>
    (isDigit09 a && isDigit09 b && isDigit09 c)
      || hasThreeConsecutiveDigits (b :: c :: rest)
  | _ => false

/-- Number of characters matching `[^a-zA-Z0-9\s]`
(the `re.findall` count in `_looks_suspicious`). -/
def specialCharCount (term : String) : Nat :=
  (term.data.filter
    (fun c => !(isUpperAZ c || isLowerAZ c || isDigit09 c || pySpaceC c))).length

/-- Match `kw` at the head of the list, followed by `\s+` then one `\w`
character (the shape shared by the marketing-style patterns). -/
def matchKwSpaceWord (kw l : List Char) : Bool :=
  kw.isPrefixOf l &&
    (let r := takeSpaceRun (l.drop kw.length)
     !r.1.isEmpty &&
       (match r.2 with
        | c :: _ => isWordC c
        | [] => false))

/-- `re.search` for `kw\s+\w+` (`\w+` needs only its first character to
witness a match). -/
def searchKwSpaceWord (kw : List Char) : List Char → Bool
  | [] => false
  | c :: cs => matchKwSpaceWord kw (c :: cs) || searchKwSpaceWord kw cs

/-- `re.search` for `\w+ness\s+\w+`: a match exists iff some occurrence of
"ness" is directly preceded by a word character and followed by
whitespace then a word character. -/
def nessSearchAux (prev : Option Char) : List Char → Bool
  | [] => false
  | c :: cs =>
    ((match prev with
      | some p => isWordC p
      | none => false)
        && matchKwSpaceWord ("ness".data) (c :: cs))
      || nessSearchAux (some c) cs

/-- hallucination_detector.py `made_up_patterns` loop: any of the
marketing-style regexes matches the lowered term (the list order does not
affect the boolean outcome). -/
def made_up_pattern_hit (lowered : String) : Bool :=
  searchKwSpaceWord ("quantum".data) lowered.data
    || searchKwSpaceWord ("magical".data) lowered.data
    || searchKwSpaceWord ("super".data) lowered.data
    || searchKwSpaceWord ("miracle".data) lowered.data
    || nessSearchAux none lowered.data

/-- hallucination_detector.py `_looks_suspicious`. -/
def looks_suspicious (term : String) : Bool :=
  if term.length > 50 then true
  else if hasThreeConsecutiveDigits term.data then true
  else if specialCharCount term > 2 then true
  else made_up_pattern_hit (pyLower term)

/-- hallucination_detector.py `KNOWN_LEGITIMATE_TERMS` (a set; only
membership is observed). -/
def KNOWN_LEGITIMATE_TERMS : List String :=
  ["diabetes", "hypertension", "asthma", "arthritis", "cancer",
   "depression", "anxiety", "heart disease", "stroke", "pneumonia",
   "bronchitis", "flu", "covid-19", "measles", "chickenpox", "eczema",
   "psoriasis", "migraine", "acne", "obesity", "copd", "emphysema",
   "kidney disease", "liver disease",
   "aspirin", "ibuprofen", "acetaminophen", "naproxen", "metformin",
   "insulin", "lisinopril", "atorvastatin", "amoxicillin", "penicillin",
   "warfarin", "prednisone", "omeprazole", "sertraline", "fluoxetine",
   "lorazepam",
   "blood test", "urinalysis", "mri", "ct scan", "x-ray", "ultrasound",
   "ecg", "ekg", "biopsy", "colonoscopy", "mammogram", "pap smear",
   "surgery", "vaccination", "therapy", "dialysis", "chemotherapy"]

/-- hallucination_detector.py `KNOWN_FAKE_TERMS` (a set; only membership
is observed). -/
def KNOWN_FAKE_TERMS : List String :=
  ["fictitious syndrome z", "fictitious syndrome", "imaginex",
   "bloodharmony panel", "quantum healing", "chakra medicine",
   "homeopathic magic", "blood harmony", "bloodharmony",
   "quantum nervous system"]

/-- The per-term classification of the `detect_hallucinations` loop with
no knowledge-base hook supplied (hallucination_detector.py lines 84-116):
known fake terms are flagged, then known legitimate terms pass, then
structurally suspicious terms are flagged, and everything else is assumed
legitimate. -/
def term_flagged (term : String) : Bool :=
  let term_lower := pyLower term
  if KNOWN_FAKE_TERMS.contains term_lower then true
  else if KNOWN_LEGITIMATE_TERMS.contains term_lower then false
  else looks_suspicious term

/-- hallucination_detector.py `detect_hallucinations` with no
knowledge-base hook: (is_hallucinating, feedback, suspected terms).  The
suspected list is the flagged terms in extraction order, which is what
the per-term loop with `continue` accumulates. -/
def detect_hallucinations (response : String) :
    Bool × String × List String :=
  let extracted := extract_medical_terms response
  if extracted.isEmpty then (false, "No medical terms to validate", [])
  else
    let suspected := extracted.filter term_flagged
    if suspected.isEmpty then
      (false, "No hallucinations detected - all terms verified", [])
    else
      (true,
       "Potential hallucinations detected: " ++ joinSep (", ") suspected
         ++ ". These medical terms may not be real or verified.",
       suspected)

end HallucinationDetector

/-! ## Agent state (src/agent/state.py) -/

/-- The values `response_status` can take (state.py documents
pending, approved, rejected, escalated; the nodes additionally assign
error). -/
inductive ResponseStatus
  | pending
  | approved
  | rejected
  | escalated
  | error
deriving DecidableEq, Repr

/-- The patient-context dictionary as the nodes read it: first/last name,
the condition of each `medical_history` entry, the name of each
`medications` entry, the allergen of each `allergies` entry.  A failed
lookup returns an error dictionary, whose list fields read back as empty
lists; it is represented by a record with empty lists. -/
structure PatientContext where
  first_name : String := ""
  last_name : String := ""
  medical_history : List String := []
  medications : List String := []
  allergies : List String := []
deriving DecidableEq, Repr

/-- state.py `AgentState`.  The wall-clock metadata fields (timestamp and
the latency floats) influence no control flow and are omitted; the Python
float `triage_confidence` is represented as a rational (its three assigned
literals 0.95, 0.85, 0.70 are compared by no code). -/
structure AgentState where
  patient_id : String := ""
  session_id : String := ""
  user_input : String := ""
  triage_level : Option TriageLevel := none
  triage_confidence : ℚ := 0
  patient_context : PatientContext := {}
  retrieved_documents : List String := []
  draft_response : Option String := none
  generation_rationale : Option String := none
  critique_score : Int := 0
  critique_feedback : Option String := none
  safety_violations : List String := []
  is_approved : Bool := false
  final_response : Option String := none
  response_status : ResponseStatus := .pending
  reflection_iterations : Nat := 0
  error_message : Option String := none
  is_error : Bool := false
deriving DecidableEq, Repr

/-- The external collaborators (spec section 6), quantified over in the
theorems.  Calls made once per Act/Critique round are indexed by the
round number so each call may behave differently.
* `maskPII`: the PII-masking collaborator applied to the user input
  before triage.
* `patientProfile`: the patient lookup.  tools.py catches every failure
  internally and returns an error dictionary, whose list fields read back
  as empty, so the lookup is total here; consequently the PlannerNode
  except branch (nodes.py lines 57-60) is unreachable and not modelled.
* `retrieve`: the document contents returned by retrieval at a round.
* `generate`: the (text, failed) pair returned by the generation call of
  the Act step at a round (tools.py `generate_response` returns
  ("", True) on failure, never raises).
* `critiqueParse`: the outcome of the critique-scoring call followed by
  `json.loads` at a round: `some (score, feedback)` when parsing
  succeeded with a numeric score, `none` when the output was unparseable
  (the bare except at nodes.py lines 260-266).  A reply that parses but
  carries a non-numeric score — which raises TypeError at the comparison
  of nodes.py line 269 into the outer except of lines 274-278 — is not
  expressible here; the refined model `EnvR`/`CriticNodeR.execute` below
  adds that third outcome and restricts to this one when it never occurs
  (theorems `critR_bridge`, `workflowLoopR_bridge`).
* `persistRaises`: whether the Redis session store raises on this
  request. -/
structure Env where
  maskPII : String → String
  patientProfile : String → PatientContext
  retrieve : Nat → List String
  generate : Nat → String × Bool
  critiqueParse : Nat → Option (Int × String)
  persistRaises : Bool

/-- config.py `Settings.safety_score_min` default. -/
def default_safety_score_min : Int := 4

/-- The fixed confidence per triage level (nodes.py lines 43-49). -/
def triage_confidence_of : TriageLevel → ℚ
  | .emergency => 95/100
  | .urgent => 85/100
  | .routine => 70/100

/-- Python `repr` of a list of strings, as interpolated by an f-string.
Python quotes each string with apostrophes unless it contains one (none of
the generated violation messages contains both quote kinds, so no escaping
arises). -/
def pyStrRepr (s : String) : String :=
  if substrMem ("\x27") s then "\"" ++ s ++ "\""
  else "\x27" ++ s ++ "\x27"

/-- Python `repr` of a list of strings. -/
def pyStrListRepr (l : List String) : String :=
  "[" ++ joinSep (", ") (l.map pyStrRepr) ++ "]"

/-! ## The PARM nodes (src/agent/nodes.py) -/

/-- nodes.py `PlannerNode.execute`: mask PII, fetch the patient context,
classify triage on the masked input, set the fixed confidence, and reset
the iteration counter.  The except branch (lines 57-60) is unreachable:
both collaborator wrappers catch internally (tools.py lines 92-94,
pii_protection.py lines 109-116) and `classify_triage` is total. -/
def PlannerNode.execute (env : Env) (s : AgentState) : AgentState :=
  let masked := env.maskPII s.user_input
  let pd := env.patientProfile s.patient_id
  let lvl := SafetyGuardrail.classify_triage masked
  { s with triage_level := some lvl,
           triage_confidence := triage_confidence_of lvl,
           patient_context := pd,
           reflection_iterations := 0 }

/-- nodes.py `ActorNode.execute`: emergencies take the hard-coded
response; otherwise retrieval then generation run, and `is_error` is
assigned the generation failure flag unconditionally (line 143).  The
prompt string assembled from the documents and the profile is only an
argument to the external generation call, which is quantified over all
behaviours per round, so its assembly is not reproduced. -/
def ActorNode.execute (env : Env) (round : Nat) (s : AgentState) :
    AgentState :=
  if s.triage_level = some .emergency then
    { s with draft_response := some SafetyGuardrail.get_emergency_response,
             generation_rationale :=
               some ("Emergency detected - using hard-coded response") }
  else
    let docs := env.retrieve round
    let gen := env.generate round
    { s with retrieved_documents := docs,
             draft_response := some gen.1,
             is_error := gen.2 }

/-- nodes.py `CriticNode.execute`: emergencies are approved with score 5
without touching the iteration counter; otherwise the violations list is
reset, the contraindication check short-circuits (score 1, no increment,
lines 200-206), then hallucination and response validation accumulate
violations, the external critique score is parsed with the deterministic
fallback (lines 260-266), approval is derived from the configured
minimum, and the iteration counter is incremented (line 272).  In every
reachable state `draft_response` is set when this node runs (both Act
branches assign it), so the default for `none` is never exercised.
This function covers the two scoring outcomes `Env.critiqueParse` can
express; the outer except of lines 274-278 (non-numeric parsed score) is
modelled by `CriticNodeR.execute` below. -/
def CriticNode.execute (env : Env) (safety_score_min : Int) (round : Nat)
    (s : AgentState) : AgentState :=
  if s.triage_level = some .emergency then
    { s with critique_score := 5,
             critique_feedback := some ("Emergency response - safety verified"),
             is_approved := true }
  else
    let patient_conditions := s.patient_context.medical_history
    let patient_medications := s.patient_context.medications
    let draft := s.draft_response.getD ("")
    let contra := SafetyGuardrail.check_contraindications draft
        patient_conditions patient_medications
    if !contra.1 then
      { s with safety_violations := [contra.2],
               critique_score := 1,
               critique_feedback :=
                 some ("CONTRAINDICATION DETECTED: " ++ contra.2),
               is_approved := false }
    else
      let hall := HallucinationDetector.detect_hallucinations draft
      let v1 : List String :=
        if hall.1 then ["HALLUCINATION: " ++ hall.2.1] else []
      let resp := SafetyGuardrail.validate_response draft 4 safety_score_min
      let violations := v1 ++ (if resp.1 then [] else [resp.2])
      let scored : Int × String :=
        match env.critiqueParse round with
        | some p => p
        | none =>
          (if resp.1 && contra.1 then 4 else 2,
           "Safety issues detected: " ++ pyStrListRepr violations)
      { s with safety_violations := violations,
               critique_score := scored.1,
               critique_feedback := some scored.2,
               is_approved := decide (safety_score_min ≤ scored.1),
               reflection_iterations := s.reflection_iterations + 1 }

/-- The two outcomes of the conditional edge out of the critic. -/
inductive Decision
  | refine
  | approve
deriving DecidableEq, Repr

/-- workflow.py `PARMGraphWorkflow._should_refine`: error, emergency,
non-empty violations and the iteration cap (the local
`max_iterations = 3`) all approve, then the score threshold, else
refine. -/
def PARMGraphWorkflow.should_refine (min_score : Int) (s : AgentState) :
    Decision :=
  if s.is_error then .approve
  else if s.triage_level = some .emergency then .approve
  else if !s.safety_violations.isEmpty then .approve
  else if 3 ≤ s.reflection_iterations then .approve
  else if min_score ≤ s.critique_score then .approve
  else .refine

/-- nodes.py `MemoryNode.execute`: derive the final response and status
(error, then emergency approval, then `is_approved and critique_score
>= 4` approval with the literal 4 of line 301, else escalation), then
persist; when persistence raises, the except branch (lines 328-331)
overwrites the response with the generic message and the status with
error. -/
def MemoryNode.execute (env : Env) (s : AgentState) : AgentState :=
  let s' :=
    if s.is_error then
      { s with final_response :=
                 some ("Error processing request: "
                   ++ s.error_message.getD ("None")),
               response_status := .error }
    else if s.triage_level = some .emergency then
      { s with final_response := s.draft_response,
               response_status := .approved }
    else if s.is_approved && decide ((4 : Int) ≤ s.critique_score) then
      { s with final_response := s.draft_response,
               response_status := .approved }
    else
      { s with final_response :=
                 some ("Safety concerns identified: "
                   ++ s.critique_feedback.getD ("None")
                   ++ "\nPlease consult with a healthcare provider."),
               response_status := .escalated }
  if env.persistRaises then
    { s' with final_response := some ("System error - please try again"),
              response_status := .error }
  else s'

/-! ## The compiled graph (src/agent/workflow.py `_build_graph`)

planner → actor → critic → (refine: actor | approve: memory) → END.
The critic-actor loop is expressed with explicit fuel; `loopFuel = 4`
never runs out (theorem `workflowLoop_terminal` below), matching the
absence of any fuel in the compiled LangGraph. -/

/-- The critic/refine loop from a state about to enter the critic.
`round` indexes the per-round collaborator calls. -/
def workflowLoop (env : Env) (min_score : Int) :
    Nat → Nat → AgentState → AgentState
  | 0, _, s => s
  | fuel + 1, round, s =>
    let s1 := CriticNode.execute env min_score round s
    match PARMGraphWorkflow.should_refine min_score s1 with
    | .approve => MemoryNode.execute env s1
    | .refine =>
      workflowLoop env min_score fuel (round + 1)
        (ActorNode.execute env (round + 1) s1)

/-- The initial state built by `NeuroTriageAgent.process_query`: only the
three input fields are supplied; every other field keeps its state.py
default. -/
def initState (patient_id session_id user_input : String) : AgentState :=
  { patient_id := patient_id, session_id := session_id,
    user_input := user_input }

/-- Fuel for the critic/refine loop; by `workflowLoop_terminal` any value
of at least 4 yields the same, terminal, result from the workflow entry. -/
def loopFuel : Nat := 4

/-- One full workflow run (workflow.py `invoke` on the compiled graph). -/
def runWorkflow (env : Env) (min_score : Int)
    (patient_id session_id user_input : String) : AgentState :=
  let s1 := PlannerNode.execute env
    (initState patient_id session_id user_input)
  let s2 := ActorNode.execute env 0 s1
  workflowLoop env min_score loopFuel 0 s2

/-- The states observed after each critic, refine-actor and memory node
execution of the loop. -/
def workflowLoopTrace (env : Env) (min_score : Int) :
    Nat → Nat → AgentState → List AgentState
  | 0, _, _ => []
  | fuel + 1, round, s =>
    let s1 := CriticNode.execute env min_score round s
    match PARMGraphWorkflow.should_refine min_score s1 with
    | .approve => [s1, MemoryNode.execute env s1]
    | .refine =>
      let s2 := ActorNode.execute env (round + 1) s1
      s1 :: s2 :: workflowLoopTrace env min_score fuel (round + 1) s2

/-- Every state observed during a run: the initial state, the post-planner
and post-actor states, then the loop trace. -/
def runTrace (env : Env) (min_score : Int)
    (patient_id session_id user_input : String) : List AgentState :=
  let s0 := initState patient_id session_id user_input
  let s1 := PlannerNode.execute env s0
  let s2 := ActorNode.execute env 0 s1
  s0 :: s1 :: s2 :: workflowLoopTrace env min_score loopFuel 0 s2

/-- The number of critic-node executions performed by the loop. -/
def workflowLoopPasses (env : Env) (min_score : Int) :
    Nat → Nat → AgentState → Nat
  | 0, _, _ => 0
  | fuel + 1, round, s =>
    let s1 := CriticNode.execute env min_score round s
    match PARMGraphWorkflow.should_refine min_score s1 with
    | .approve => 1
    | .refine =>
      1 + workflowLoopPasses env min_score fuel (round + 1)
        (ActorNode.execute env (round + 1) s1)

/-- The number of critic-node executions of a full run. -/
def runCritiquePasses (env : Env) (min_score : Int)
    (patient_id session_id user_input : String) : Nat :=
  let s1 := PlannerNode.execute env
    (initState patient_id session_id user_input)
  let s2 := ActorNode.execute env 0 s1
  workflowLoopPasses env min_score loopFuel 0 s2

/-! ## The refined critic model

`Env.critiqueParse`/`CriticNode.execute` above cover two scoring
outcomes: a parse success carrying an integer score, and a parse failure
(the inner except of nodes.py lines 260-266).  The source has a third
path: a reply that parses as JSON but whose score is not a number is
assigned at line 258, and the comparison
`state.critique_score >= settings.safety_score_min` at line 269 then
raises TypeError into the outer except (lines 274-278), which overwrites
the score with 2 and clears the approval flag WITHOUT executing the
increment at line 272.  The definitions below add this outcome.  The
bridge theorems `critR_bridge` and `workflowLoopR_bridge` show the
refined model coincides with the one above whenever the third outcome
never occurs. -/

/-- The three outcomes of the critique-scoring call followed by JSON
parsing (nodes.py lines 247-269): the reply parsed and its score is an
integer (a missing score key yields the default 3, subsumed by
`parsed 3`); `json.loads` raised, taking the inner except and the local
fallback; or the reply parsed but its score is not a number, so the
comparison at line 269 raises TypeError into the outer except. -/
inductive CritiqueOutcome
  | parsed (score : Int) (feedback : String)
  | unparseable
  | nonNumericScore
deriving DecidableEq, Repr

/-- The text of the TypeError raised when a str score is compared with
the int threshold, as rendered into the critique feedback by the outer
except handler (nodes.py line 277). -/
def typeErrorMessage : String :=
  "\x27>=\x27 not supported between instances of \x27str\x27 and \x27int\x27"

/-- The collaborators with the full three-outcome scoring model; all
other fields are as in `Env`. -/
structure EnvR where
  maskPII : String → String
  patientProfile : String → PatientContext
  retrieve : Nat → List String
  generate : Nat → String × Bool
  critiqueParse : Nat → CritiqueOutcome
  persistRaises : Bool

/-- Forget the third outcome.  Its image is irrelevant: the bridge
theorems carry the hypothesis that it never occurs. -/
def EnvR.toEnv (e : EnvR) : Env :=
  { maskPII := e.maskPII, patientProfile := e.patientProfile,
    retrieve := e.retrieve, generate := e.generate,
    critiqueParse := fun r =>
      match e.critiqueParse r with
      | .parsed sc fb => some (sc, fb)
      | .unparseable => none
      | .nonNumericScore => none,
    persistRaises := e.persistRaises }

/-- nodes.py `CriticNode.execute` with the outer except path modelled: as
`CriticNode.execute` above, except that a non-numeric parsed score lands
in the handler of lines 274-278 — score 2, error feedback, approval
cleared, the violations as accumulated before the raise, and NO
iteration increment (line 272 is skipped by the raise at line 269). -/
def CriticNodeR.execute (env : EnvR) (safety_score_min : Int)
    (round : Nat) (s : AgentState) : AgentState :=
  if s.triage_level = some .emergency then
    { s with critique_score := 5,
             critique_feedback := some ("Emergency response - safety verified"),
             is_approved := true }
  else
    let patient_conditions := s.patient_context.medical_history
    let patient_medications := s.patient_context.medications
    let draft := s.draft_response.getD ("")
    let contra := SafetyGuardrail.check_contraindications draft
        patient_conditions patient_medications
    if !contra.1 then
      { s with safety_violations := [contra.2],
               critique_score := 1,
               critique_feedback :=
                 some ("CONTRAINDICATION DETECTED: " ++ contra.2),
               is_approved := false }
    else
      let hall := HallucinationDetector.detect_hallucinations draft
      let v1 : List String :=
        if hall.1 then ["HALLUCINATION: " ++ hall.2.1] else []
      let resp := SafetyGuardrail.validate_response draft 4 safety_score_min
      let violations := v1 ++ (if resp.1 then [] else [resp.2])
      match env.critiqueParse round with
      | .nonNumericScore =>
        { s with safety_violations := violations,
                 critique_score := 2,
                 critique_feedback :=
                   some ("Critique error: " ++ typeErrorMessage),
                 is_approved := false }
      | outcome =>
        let scored : Int × String :=
          match outcome with
          | .parsed sc fb => (sc, fb)
          | _ =>
            (if resp.1 && contra.1 then 4 else 2,
             "Safety issues detected: " ++ pyStrListRepr violations)
        { s with safety_violations := violations,
                 critique_score := scored.1,
                 critique_feedback := some scored.2,
                 is_approved := decide (safety_score_min ≤ scored.1),
                 reflection_iterations := s.reflection_iterations + 1 }

/-- The critic/refine loop over the refined critic; the other nodes take
the forgetful image of the environment, which carries the same
collaborator fields. -/
def workflowLoopR (env : EnvR) (min_score : Int) :
    Nat → Nat → AgentState → AgentState
  | 0, _, s => s
  | fuel + 1, round, s =>
    let s1 := CriticNodeR.execute env min_score round s
    match PARMGraphWorkflow.should_refine min_score s1 with
    | .approve => MemoryNode.execute env.toEnv s1
    | .refine =>
      workflowLoopR env min_score fuel (round + 1)
        (ActorNode.execute env.toEnv (round + 1) s1)

/-- A full run in the refined model, with the loop fuel a parameter: the
source loop has no fuel, and under the third scoring outcome no finite
fuel reaches Finalize (theorem `nonNumericScore_loop_never_finalizes`). -/
def runWorkflowR (env : EnvR) (min_score : Int) (fuel : Nat)
    (patient_id session_id user_input : String) : AgentState :=
  let s1 := PlannerNode.execute env.toEnv
    (initState patient_id session_id user_input)
  let s2 := ActorNode.execute env.toEnv 0 s1
  workflowLoopR env min_score fuel 0 s2

/-- The observed loop states in the refined model. -/
def workflowLoopTraceR (env : EnvR) (min_score : Int) :
    Nat → Nat → AgentState → List AgentState
  | 0, _, _ => []
  | fuel + 1, round, s =>
    let s1 := CriticNodeR.execute env min_score round s
    match PARMGraphWorkflow.should_refine min_score s1 with
    | .approve => [s1, MemoryNode.execute env.toEnv s1]
    | .refine =>
      let s2 := ActorNode.execute env.toEnv (round + 1) s1
      s1 :: s2 :: workflowLoopTraceR env min_score fuel (round + 1) s2

/-- Every state observed during a refined run. -/
def runTraceR (env : EnvR) (min_score : Int) (fuel : Nat)
    (patient_id session_id user_input : String) : List AgentState :=
  let s0 := initState patient_id session_id user_input
  let s1 := PlannerNode.execute env.toEnv s0
  let s2 := ActorNode.execute env.toEnv 0 s1
  s0 :: s1 :: s2 :: workflowLoopTraceR env min_score fuel 0 s2

/-- The number of critic-node executions of the refined loop. -/
def workflowLoopPassesR (env : EnvR) (min_score : Int) :
    Nat → Nat → AgentState → Nat
  | 0, _, _ => 0
  | fuel + 1, round, s =>
    let s1 := CriticNodeR.execute env min_score round s
    match PARMGraphWorkflow.should_refine min_score s1 with
    | .approve => 1
    | .refine =>
      1 + workflowLoopPassesR env min_score fuel (round + 1)
        (ActorNode.execute env.toEnv (round + 1) s1)

/-- The number of critic-node executions of a refined run. -/
def runCritiquePassesR (env : EnvR) (min_score : Int) (fuel : Nat)
    (patient_id session_id user_input : String) : Nat :=
  let s1 := PlannerNode.execute env.toEnv
    (initState patient_id session_id user_input)
  let s2 := ActorNode.execute env.toEnv 0 s1
  workflowLoopPassesR env min_score fuel 0 s2

/-! ## Claim-side reformulations

These definitions transcribe the wording of the specification (not the
source) and are compared against the source-derived definitions. -/

/-- A rule list evaluated in order, first matching rule wins, with a
default decision: the evaluation discipline the specification prescribes
for the CriticGate. -/
def firstRuleWins (rules : List ((AgentState → Bool) × Decision))
    (dflt : Decision) (s : AgentState) : Decision :=
  match rules.find? (fun r => r.1 s) with
  | some r => r.2
  | none => dflt

/-- The CriticGate rules in the priority order the specification states:
error, emergency, non-empty violations, iteration cap, score threshold,
each approving. -/
def criticGateRules (min_score : Int) :
    List ((AgentState → Bool) × Decision) :=
  [(fun s => s.is_error, .approve),
   (fun s => decide (s.triage_level = some TriageLevel.emergency), .approve),
   (fun s => !s.safety_violations.isEmpty, .approve),
   (fun s => decide (3 ≤ s.reflection_iterations), .approve),
   (fun s => decide (min_score ≤ s.critique_score), .approve)]

namespace HallucinationClaim

/-- Claim wording: case-folded membership in the known blacklist. -/
def blacklisted (term : String) : Bool :=
  HallucinationDetector.KNOWN_FAKE_TERMS.contains (pyLower term)

/-- Claim wording: membership in the known whitelist. -/
def whitelisted (term : String) : Bool :=
  HallucinationDetector.KNOWN_LEGITIMATE_TERMS.contains (pyLower term)

/-- Claim wording: structural suspicion as the disjunction of length over
50, three or more consecutive digits, more than two non-alphanumeric
symbols, or a marketing-style pattern. -/
def structurallySuspicious (term : String) : Bool :=
  decide (50 < term.length)
    || HallucinationDetector.hasThreeConsecutiveDigits term.data
    || decide (2 < HallucinationDetector.specialCharCount term)
    || HallucinationDetector.made_up_pattern_hit (pyLower term)

/-- Claim wording: the ordered per-term predicates, first match wins;
with no knowledge-base hook the fall-through is not flagged (fail
open). -/
def classifyTerm (term : String) : Bool :=
  if blacklisted term then true
  else if whitelisted term then false
  else if structurallySuspicious term then true
  else false

end HallucinationClaim

/-! ## Helper lemmas about the nodes and the gate -/

theorem crit_triage_eq (env : Env) (m : Int) (r : Nat) (s : AgentState) :
    (CriticNode.execute env m r s).triage_level = s.triage_level := by
  simp only [CriticNode.execute]
  split
  · rfl
  · split
    · rfl
    · rfl

theorem crit_is_error_eq (env : Env) (m : Int) (r : Nat) (s : AgentState) :
    (CriticNode.execute env m r s).is_error = s.is_error := by
  simp only [CriticNode.execute]
  split
  · rfl
  · split
    · rfl
    · rfl

theorem crit_iter_le (env : Env) (m : Int) (r : Nat) (s : AgentState) :
    (CriticNode.execute env m r s).reflection_iterations ≤
      s.reflection_iterations + 1 := by
  simp only [CriticNode.execute]
  split
  · exact Nat.le_succ _
  · split
    · exact Nat.le_succ _
    · exact Nat.le_refl _

theorem actor_iter_eq (env : Env) (r : Nat) (s : AgentState) :
    (ActorNode.execute env r s).reflection_iterations =
      s.reflection_iterations := by
  simp only [ActorNode.execute]
  split
  · rfl
  · rfl

theorem actor_triage_eq (env : Env) (r : Nat) (s : AgentState) :
    (ActorNode.execute env r s).triage_level = s.triage_level := by
  simp only [ActorNode.execute]
  split
  · rfl
  · rfl

theorem planner_is_error_eq (env : Env) (s : AgentState) :
    (PlannerNode.execute env s).is_error = s.is_error := rfl

theorem memory_is_error_eq (env : Env) (s : AgentState) :
    (MemoryNode.execute env s).is_error = s.is_error := by
  simp only [MemoryNode.execute]
  split_ifs <;> rfl

theorem memory_iter_eq (env : Env) (s : AgentState) :
    (MemoryNode.execute env s).reflection_iterations =
      s.reflection_iterations := by
  simp only [MemoryNode.execute]
  split_ifs <;> rfl

/-- The Finalize step always assigns a terminal status. -/
theorem memory_status_terminal (env : Env) (s : AgentState) :
    (MemoryNode.execute env s).response_status = .approved ∨
    (MemoryNode.execute env s).response_status = .escalated ∨
    (MemoryNode.execute env s).response_status = .error := by
  simp only [MemoryNode.execute]
  split_ifs <;> simp

/-- With the error flag set, Finalize yields the error status whether or
not persistence raises. -/
theorem memory_status_of_error (env : Env) (s : AgentState)
    (h : s.is_error = true) :
    (MemoryNode.execute env s).response_status = .error := by
  simp only [MemoryNode.execute, h]
  split_ifs <;> simp

/-- With the error flag clear, a false approval flag, no emergency and no
persistence failure, Finalize escalates. -/
theorem memory_status_escalated (env : Env) (s : AgentState)
    (he : s.is_error = false) (ht : s.triage_level ≠ some .emergency)
    (ha : s.is_approved = false) :
    (MemoryNode.execute env s).response_status = .escalated ∨
    (MemoryNode.execute env s).response_status = .error := by
  simp only [MemoryNode.execute, he, ha]
  split_ifs <;> simp_all

theorem should_refine_of_error (m : Int) (s : AgentState)
    (h : s.is_error = true) :
    PARMGraphWorkflow.should_refine m s = .approve := by
  simp [PARMGraphWorkflow.should_refine, h]

/-- Everything the refine decision implies about the state. -/
theorem refine_inv (m : Int) (s : AgentState)
    (h : PARMGraphWorkflow.should_refine m s = .refine) :
    s.is_error = false ∧ s.triage_level ≠ some TriageLevel.emergency ∧
    s.safety_violations = [] ∧ s.reflection_iterations < 3 ∧
    s.critique_score < m := by
  simp only [PARMGraphWorkflow.should_refine] at h
  split_ifs at h with h1 h2 h3 h4 h5
  exact ⟨by simpa using h1, h2,
    by simpa [List.isEmpty_iff] using h3, by omega, by omega⟩

/-- A critic pass followed by a refine decision went through the full
scoring path and therefore incremented the iteration counter: the
emergency path keeps an emergency triage level (which approves) and the
contraindication path leaves a non-empty violations list (which
approves). -/
theorem crit_iter_of_refine (env : Env) (m : Int) (r : Nat) (s : AgentState)
    (h : PARMGraphWorkflow.should_refine m (CriticNode.execute env m r s) =
      .refine) :
    (CriticNode.execute env m r s).reflection_iterations =
      s.reflection_iterations + 1 := by
  obtain ⟨-, ht, hv, -, -⟩ := refine_inv m _ h
  rw [crit_triage_eq] at ht
  revert hv
  simp only [CriticNode.execute]
  split
  next h1 => exact fun _ => absurd h1 ht
  next h1 =>
    split
    next h2 => intro hv; simp at hv
    next h2 => intro _; rfl

/-- The non-emergency, contraindication-free critic pass increments the
iteration counter by exactly one. -/
theorem crit_iter_full_pass (env : Env) (m : Int) (r : Nat) (s : AgentState)
    (ht : s.triage_level ≠ some TriageLevel.emergency)
    (hc : (SafetyGuardrail.check_contraindications (s.draft_response.getD (""))
      s.patient_context.medical_history s.patient_context.medications).1 = true) :
    (CriticNode.execute env m r s).reflection_iterations =
      s.reflection_iterations + 1 := by
  simp only [CriticNode.execute]
  split
  next h1 => exact absurd h1 ht
  next h1 =>
    split
    next h2 => rw [hc] at h2; simp at h2
    next h2 => rfl

/-- With enough fuel the loop always finalizes: the status of the result
is terminal.  Fuel `4 ≤ fuel + reflectionIterations` suffices because a
refine decision strictly increases the counter and is impossible once the
counter reaches 3. -/
theorem workflowLoop_terminal (env : Env) (m : Int) :
    ∀ fuel r (s : AgentState), 1 ≤ fuel →
    4 ≤ fuel + s.reflection_iterations →
    ((workflowLoop env m fuel r s).response_status = .approved ∨
     (workflowLoop env m fuel r s).response_status = .escalated ∨
     (workflowLoop env m fuel r s).response_status = .error) := by
  intro fuel
  induction fuel with
  | zero => intro r s h1 _; omega
  | succ f ih =>
    intro r s _ h2
    simp only [workflowLoop]
    cases hd : PARMGraphWorkflow.should_refine m (CriticNode.execute env m r s)
    case approve =>
      simp only [hd]
      exact memory_status_terminal env _
    case refine =>
      simp only [hd]
      have h3 := crit_iter_of_refine env m r s hd
      have h4 := (refine_inv m _ hd).2.2.2.1
      rw [h3] at h4
      apply ih
      · omega
      · rw [actor_iter_eq, h3]
        omega

/-- The iteration counter stays at most 3 at every state the loop
observes, provided it enters with a counter of at most 2 (as every run
does: the planner resets it to 0). -/
theorem workflowLoopTrace_iter (env : Env) (m : Int) :
    ∀ fuel r (s : AgentState), s.reflection_iterations ≤ 2 →
    ∀ x ∈ workflowLoopTrace env m fuel r s, x.reflection_iterations ≤ 3 := by
  intro fuel
  induction fuel with
  | zero => intro r s _ x hx; simp [workflowLoopTrace] at hx
  | succ f ih =>
    intro r s hs x hx
    have hcrit : (CriticNode.execute env m r s).reflection_iterations ≤ 3 :=
      le_trans (crit_iter_le env m r s) (by omega)
    simp only [workflowLoopTrace] at hx
    cases hd : PARMGraphWorkflow.should_refine m (CriticNode.execute env m r s)
    case approve =>
      simp only [hd, List.mem_cons, List.not_mem_nil, or_false] at hx
      rcases hx with hx | hx
      · exact hx ▸ hcrit
      · subst hx
        rw [memory_iter_eq]
        exact hcrit
    case refine =>
      simp only [hd, List.mem_cons] at hx
      have h4 := (refine_inv m _ hd).2.2.2.1
      rcases hx with hx | hx | hx
      · exact hx ▸ hcrit
      · subst hx
        rw [actor_iter_eq]
        omega
      · exact ih (r + 1) _ (by rw [actor_iter_eq]; omega) x hx

/-- The loop performs at most `3 - reflectionIterations` critic passes
(counted additively to stay in ℕ). -/
theorem workflowLoopPasses_le (env : Env) (m : Int) :
    ∀ fuel r (s : AgentState), s.reflection_iterations ≤ 2 →
    workflowLoopPasses env m fuel r s + s.reflection_iterations ≤ 3 := by
  intro fuel
  induction fuel with
  | zero => intro r s hs; simp [workflowLoopPasses]; omega
  | succ f ih =>
    intro r s hs
    simp only [workflowLoopPasses]
    cases hd : PARMGraphWorkflow.should_refine m (CriticNode.execute env m r s)
    case approve =>
      simp only [hd]
      omega
    case refine =>
      simp only [hd]
      have h3 := crit_iter_of_refine env m r s hd
      have h4 := (refine_inv m _ hd).2.2.2.1
      have h5 := ih (r + 1) (ActorNode.execute env (r + 1)
        (CriticNode.execute env m r s)) (by rw [actor_iter_eq]; omega)
      rw [actor_iter_eq, h3] at h5
      omega

/-- Entering the loop with the error flag set finalizes with the error
status: the critic preserves the flag, the gate approves on it first, and
Finalize renders it as an error. -/
theorem workflowLoop_of_error (env : Env) (m : Int) :
    ∀ fuel r (s : AgentState), 1 ≤ fuel → s.is_error = true →
    (workflowLoop env m fuel r s).response_status = .error := by
  intro fuel
  cases fuel with
  | zero => intro r s h1 _; omega
  | succ f =>
    intro r s _ he
    simp only [workflowLoop]
    have h1 : (CriticNode.execute env m r s).is_error = true := by
      rw [crit_is_error_eq]; exact he
    rw [should_refine_of_error m _ h1]
    exact memory_status_of_error env _ h1

/-- If any state the loop observes has the error flag set, the loop
finalizes with the error status. -/
theorem workflowLoopTrace_error (env : Env) (m : Int) :
    ∀ fuel r (s : AgentState), 1 ≤ fuel →
    4 ≤ fuel + s.reflection_iterations →
    ∀ x ∈ workflowLoopTrace env m fuel r s, x.is_error = true →
    (workflowLoop env m fuel r s).response_status = .error := by
  intro fuel
  induction fuel with
  | zero => intro r s h1 _ x hx; omega
  | succ f ih =>
    intro r s _ h2 x hx he
    simp only [workflowLoopTrace] at hx
    simp only [workflowLoop]
    cases hd : PARMGraphWorkflow.should_refine m (CriticNode.execute env m r s)
    case approve =>
      simp only [hd, List.mem_cons, List.not_mem_nil, or_false] at hx
      simp only [hd]
      have hcrit : (CriticNode.execute env m r s).is_error = true := by
        rcases hx with hx | hx
        · exact hx ▸ he
        · rw [← memory_is_error_eq env _, ← hx]
          exact he
      exact memory_status_of_error env _ hcrit
    case refine =>
      simp only [hd, List.mem_cons] at hx
      simp only [hd]
      have h3 := crit_iter_of_refine env m r s hd
      have h4 := (refine_inv m _ hd).2.2.2.1
      have hne := (refine_inv m _ hd).1
      rcases hx with hx | hx | hx
      · rw [hx, hne] at he
        exact absurd he (by simp)
      · exact workflowLoop_of_error env m f (r + 1) _ (by omega) (hx ▸ he)
      · exact ih (r + 1) _ (by omega)
          (by rw [actor_iter_eq, h3]; omega) x hx he

theorem critR_triage_eq (env : EnvR) (m : Int) (r : Nat) (s : AgentState) :
    (CriticNodeR.execute env m r s).triage_level = s.triage_level := by
  simp only [CriticNodeR.execute]
  split
  · rfl
  · split
    · rfl
    · split <;> rfl

theorem critR_is_error_eq (env : EnvR) (m : Int) (r : Nat)
    (s : AgentState) :
    (CriticNodeR.execute env m r s).is_error = s.is_error := by
  simp only [CriticNodeR.execute]
  split
  · rfl
  · split
    · rfl
    · split <;> rfl

theorem critR_iter_le (env : EnvR) (m : Int) (r : Nat) (s : AgentState) :
    (CriticNodeR.execute env m r s).reflection_iterations ≤
      s.reflection_iterations + 1 := by
  simp only [CriticNodeR.execute]
  split
  · exact Nat.le_succ _
  · split
    · exact Nat.le_succ _
    · split
      · exact Nat.le_succ _
      · exact Nat.le_refl _

/-- On a pass whose scoring outcome is expressible in the restricted
model, the refined critic agrees with `CriticNode.execute` over the
forgetful environment. -/
theorem critR_bridge (env : EnvR) (m : Int) (r : Nat) (s : AgentState)
    (h : env.critiqueParse r ≠ .nonNumericScore) :
    CriticNodeR.execute env m r s =
      CriticNode.execute env.toEnv m r s := by
  cases hc : env.critiqueParse r with
  | parsed sc fb =>
    simp only [CriticNodeR.execute, CriticNode.execute, EnvR.toEnv, hc]
  | unparseable =>
    simp only [CriticNodeR.execute, CriticNode.execute, EnvR.toEnv, hc]
  | nonNumericScore => exact absurd hc h

/-- When the third scoring outcome never occurs, the refined loop is the
restricted loop. -/
theorem workflowLoopR_bridge (env : EnvR) (m : Int)
    (h : ∀ r, env.critiqueParse r ≠ .nonNumericScore) :
    ∀ fuel r (s : AgentState),
    workflowLoopR env m fuel r s = workflowLoop env.toEnv m fuel r s := by
  intro fuel
  induction fuel with
  | zero => intro r s; rfl
  | succ f ih =>
    intro r s
    simp only [workflowLoopR, workflowLoop, critR_bridge env m r s (h r)]
    cases hd : PARMGraphWorkflow.should_refine m
      (CriticNode.execute env.toEnv m r s)
    case approve => simp only [hd]
    case refine =>
      simp only [hd]
      exact ih (r + 1) _

/-- When the third scoring outcome never occurs, the refined pass count
is the restricted pass count. -/
theorem workflowLoopPassesR_bridge (env : EnvR) (m : Int)
    (h : ∀ r, env.critiqueParse r ≠ .nonNumericScore) :
    ∀ fuel r (s : AgentState),
    workflowLoopPassesR env m fuel r s =
      workflowLoopPasses env.toEnv m fuel r s := by
  intro fuel
  induction fuel with
  | zero => intro r s; rfl
  | succ f ih =>
    intro r s
    simp only [workflowLoopPassesR, workflowLoopPasses,
      critR_bridge env m r s (h r)]
    cases hd : PARMGraphWorkflow.should_refine m
      (CriticNode.execute env.toEnv m r s)
    case approve => simp only [hd]
    case refine =>
      simp only [hd]
      rw [ih (r + 1) _]

/-- The iteration counter stays at most 3 at every state the refined
loop observes — unconditionally, also on passes that take the outer
except path (those leave the counter unchanged). -/
theorem workflowLoopTraceR_iter (env : EnvR) (m : Int) :
    ∀ fuel r (s : AgentState), s.reflection_iterations ≤ 2 →
    ∀ x ∈ workflowLoopTraceR env m fuel r s,
      x.reflection_iterations ≤ 3 := by
  intro fuel
  induction fuel with
  | zero => intro r s _ x hx; simp [workflowLoopTraceR] at hx
  | succ f ih =>
    intro r s hs x hx
    have hcrit : (CriticNodeR.execute env m r s).reflection_iterations ≤
        3 := le_trans (critR_iter_le env m r s) (by omega)
    simp only [workflowLoopTraceR] at hx
    cases hd : PARMGraphWorkflow.should_refine m
      (CriticNodeR.execute env m r s)
    case approve =>
      simp only [hd, List.mem_cons, List.not_mem_nil, or_false] at hx
      rcases hx with hx | hx
      · exact hx ▸ hcrit
      · subst hx
        rw [memory_iter_eq]
        exact hcrit
    case refine =>
      simp only [hd, List.mem_cons] at hx
      have h4 := (refine_inv m _ hd).2.2.2.1
      rcases hx with hx | hx | hx
      · exact hx ▸ hcrit
      · subst hx
        rw [actor_iter_eq]
        omega
      · exact ih (r + 1) _ (by rw [actor_iter_eq]; omega) x hx

/-- The non-emergency, contraindication-free refined critic pass whose
scoring outcome is numeric or unparseable increments the counter by
exactly one. -/
theorem critR_iter_full_pass (env : EnvR) (m : Int) (r : Nat)
    (s : AgentState) (ht : s.triage_level ≠ some TriageLevel.emergency)
    (hc : (SafetyGuardrail.check_contraindications (s.draft_response.getD (""))
      s.patient_context.medical_history
      s.patient_context.medications).1 = true)
    (hq : env.critiqueParse r ≠ .nonNumericScore) :
    (CriticNodeR.execute env m r s).reflection_iterations =
      s.reflection_iterations + 1 := by
  simp only [CriticNodeR.execute]
  split
  next h1 => exact absurd h1 ht
  next h1 =>
    split
    next h2 => rw [hc] at h2; simp at h2
    next h2 =>
      cases hp : env.critiqueParse r with
      | parsed sc fb => simp only [hp]
      | unparseable => simp only [hp]
      | nonNumericScore => exact absurd hp hq

/-- The non-emergency, contraindication-free refined critic pass whose
scoring reply parses to a non-numeric score leaves the counter
unchanged, overwrites the score with 2 and clears the approval flag
(the outer except of nodes.py lines 274-278). -/
theorem critR_nonNumeric (env : EnvR) (m : Int) (r : Nat)
    (s : AgentState) (ht : s.triage_level ≠ some TriageLevel.emergency)
    (hc : (SafetyGuardrail.check_contraindications (s.draft_response.getD (""))
      s.patient_context.medical_history
      s.patient_context.medications).1 = true)
    (hq : env.critiqueParse r = .nonNumericScore) :
    (CriticNodeR.execute env m r s).reflection_iterations =
      s.reflection_iterations ∧
    (CriticNodeR.execute env m r s).critique_score = 2 ∧
    (CriticNodeR.execute env m r s).is_approved = false := by
  refine ⟨?_, ?_, ?_⟩
  · simp only [CriticNodeR.execute]
    split
    next h1 => exact absurd h1 ht
    next h1 =>
      split
      next h2 => simp [hc] at h2
      next h2 => simp only [hq]
  · simp only [CriticNodeR.execute]
    split
    next h1 => exact absurd h1 ht
    next h1 =>
      split
      next h2 => simp [hc] at h2
      next h2 => simp only [hq]
  · simp only [CriticNodeR.execute]
    split
    next h1 => exact absurd h1 ht
    next h1 =>
      split
      next h2 => simp [hc] at h2
      next h2 => simp only [hq]

theorem crit_conf_eq (env : Env) (m : Int) (r : Nat) (s : AgentState) :
    (CriticNode.execute env m r s).triage_confidence =
      s.triage_confidence := by
  simp only [CriticNode.execute]
  split
  · rfl
  · split
    · rfl
    · rfl

theorem crit_draft_eq (env : Env) (m : Int) (r : Nat) (s : AgentState) :
    (CriticNode.execute env m r s).draft_response = s.draft_response := by
  simp only [CriticNode.execute]
  split
  · rfl
  · split
    · rfl
    · rfl

theorem memory_conf_eq (env : Env) (s : AgentState) :
    (MemoryNode.execute env s).triage_confidence = s.triage_confidence := by
  simp only [MemoryNode.execute]
  split_ifs <;> rfl

theorem memory_triage_eq (env : Env) (s : AgentState) :
    (MemoryNode.execute env s).triage_level = s.triage_level := by
  simp only [MemoryNode.execute]
  split_ifs <;> rfl

/-- An input whose masked form carries an emergency keyword classifies as
an emergency. -/
theorem classify_emergency_of_keyword (x : String)
    (h : SafetyGuardrail.EMERGENCY_KEYWORDS.any
      (fun k => substrMem k (pyLower x)) = true) :
    SafetyGuardrail.classify_triage x = .emergency := by
  simp [SafetyGuardrail.classify_triage, h]

/-- A non-empty violations list forces the gate to approve (the first two
rules also approve, so the decision is approve whatever the score or the
counter). -/
theorem gate_approve_of_violations (m : Int) (s : AgentState)
    (h : s.safety_violations ≠ []) :
    PARMGraphWorkflow.should_refine m s = .approve := by
  simp only [PARMGraphWorkflow.should_refine]
  split_ifs with h1 h2 h3 h4 h5
  any_goals rfl
  exact absurd (by simpa [List.isEmpty_iff] using h3) h

theorem planner_iter_zero (env : Env) (s : AgentState) :
    (PlannerNode.execute env s).reflection_iterations = 0 := rfl

/-! ## Concrete collaborator environments and states used by witnesses
and counterexamples -/

/-- A well-behaved collaborator environment: identity masking, empty
profile, an innocuous generated draft, a parsed high critique score, and
working persistence. -/
def envBase : Env :=
  { maskPII := fun t => t,
    patientProfile := fun _ => {},
    retrieve := fun _ => [],
    generate := fun _ => ("rest and hydration", false),
    critiqueParse := fun _ => some (5, "fine"),
    persistRaises := false }

/-- Collaborators whose generated draft names a known-fake drug inside
quotes after the trigger word drug, while the critique scorer still
parses to a score of 5. -/
def envHallApprove : Env :=
  { envBase with
    generate := fun _ => ("take the drug \x27imaginex\x27 daily", false) }

/-- Collaborators whose generated draft names a known-fake drug and whose
critique scorer returns unparseable output at every round. -/
def envHallNoParse : Env :=
  { envBase with
    generate := fun _ => ("take the drug \x27imaginex\x27 daily", false),
    critiqueParse := fun _ => none }

/-- Collaborators for an NSAID-asthma contraindication scenario. -/
def envContra : Env :=
  { envBase with
    patientProfile := fun _ => { medical_history := ["Asthma"] },
    generate := fun _ => ("You could try naproxen for the pain.", false) }

/-- Collaborators whose generation call fails at every round. -/
def envGenFail : Env :=
  { envBase with generate := fun _ => ("", true) }

/-- Collaborators whose session persistence raises. -/
def envPersistFail : Env :=
  { envBase with persistRaises := true }

/-- A state about to enter the critic with a routine triage level and a
draft naming a known-fake drug. -/
def stateHall : AgentState :=
  { patient_id := "p1", session_id := "s1", user_input := "a mild question",
    triage_level := some .routine,
    draft_response := some ("take the drug \x27imaginex\x27 daily") }

/-- A state about to enter the critic whose draft recommends an NSAID to
an asthmatic patient. -/
def stateContra : AgentState :=
  { patient_id := "p1", session_id := "s1",
    user_input := "Can I take naproxen for my asthma pain?",
    triage_level := some .routine,
    draft_response := some ("You could try naproxen for the pain."),
    patient_context := { medical_history := ["Asthma"] } }

/-- A state about to enter the critic with an innocuous draft. -/
def stateBenign : AgentState :=
  { patient_id := "p1", session_id := "s1", user_input := "a mild question",
    triage_level := some .routine,
    draft_response := some ("rest and hydration") }

/-! ## The claims -/

/-- C1: for every state at which the CriticGate decision is evaluated, a
non-empty safetyViolations list means the decision is never refine: the
gate approves (routing to the Finalize node, the terminal branch of the
graph), regardless of critiqueScore or of the remaining iteration
budget. -/
theorem C1_nonempty_violations_terminal (m : Int) (s : AgentState)
    (h : s.safety_violations ≠ []) :
    PARMGraphWorkflow.should_refine m s = .approve :=
  gate_approve_of_violations m s h

/-- Witness for C1 at a concrete state with one violation, score 1 and an
untouched iteration budget. -/
theorem C1_witness :
    PARMGraphWorkflow.should_refine 4
      { patient_id := "p1", session_id := "s1", user_input := "q",
        safety_violations := ["CONTRAINDICATION: naproxen"],
        critique_score := 1, reflection_iterations := 0 } = .approve :=
  C1_nonempty_violations_terminal 4 _ (by decide)

/-- C3: the gate decision equals the first-matching-rule evaluation of
the five specification rules in their stated priority order (error,
emergency, non-empty violations, iteration cap, score threshold, each
approving) with refine as the default. -/
theorem C3_gate_rule_order (m : Int) (s : AgentState) :
    PARMGraphWorkflow.should_refine m s =
      firstRuleWins (criticGateRules m) .refine s := by
  cases h1 : s.is_error <;>
    by_cases h2 : s.triage_level = some TriageLevel.emergency <;>
      cases h3 : s.safety_violations.isEmpty <;>
        by_cases h4 : 3 ≤ s.reflection_iterations <;>
          by_cases h5 : m ≤ s.critique_score <;>
            simp [PARMGraphWorkflow.should_refine, firstRuleWins,
              criticGateRules, List.find?, h1, h2, h3, h4, h5]

/-- C9: per candidate term the detector classification equals the ordered
claim predicates, first match wins — case-folded blacklist membership
flags, whitelist membership passes, structural suspicion flags, and with
no knowledge-base hook the fall-through never flags; and structural
suspicion is exactly the claimed four-way disjunction. -/
theorem C9_term_classification (t : String) :
    HallucinationDetector.term_flagged t = HallucinationClaim.classifyTerm t ∧
    HallucinationDetector.looks_suspicious t =
      HallucinationClaim.structurallySuspicious t := by
  have hsusp : HallucinationDetector.looks_suspicious t =
      HallucinationClaim.structurallySuspicious t := by
    simp only [HallucinationDetector.looks_suspicious,
      HallucinationClaim.structurallySuspicious]
    split_ifs <;> simp_all
  refine ⟨?_, hsusp⟩
  simp only [HallucinationDetector.term_flagged,
    HallucinationClaim.classifyTerm, HallucinationClaim.blacklisted,
    HallucinationClaim.whitelisted]
  split_ifs <;> simp_all

/-- C10: every state handed to Finalize leaves with a terminal status
(approved, escalated or error — never still pending), and when the
persistence call raises the status is error with the generic
user-facing message. -/
theorem C10_finalize_always_terminal (env : Env) (s : AgentState) :
    ((MemoryNode.execute env s).response_status = .approved ∨
     (MemoryNode.execute env s).response_status = .escalated ∨
     (MemoryNode.execute env s).response_status = .error) ∧
    (env.persistRaises = true →
      (MemoryNode.execute env s).response_status = .error ∧
      (MemoryNode.execute env s).final_response =
        some ("System error - please try again")) := by
  refine ⟨memory_status_terminal env s, fun hp => ?_⟩
  simp only [MemoryNode.execute, hp]
  split_ifs <;> simp

/-- Witness for C10 at a failing persistence collaborator and a pending
state. -/
theorem C10_witness :
    (MemoryNode.execute envPersistFail stateBenign).response_status =
      .error ∧
    (MemoryNode.execute envPersistFail stateBenign).final_response =
      some ("System error - please try again") :=
  (C10_finalize_always_terminal envPersistFail stateBenign).2 rfl

/-- Counterexample to C4 as stated: a full run whose final state has a
non-empty safetyViolations list (a hallucination flag), no error and a
routine triage level, yet finalizes APPROVED — Finalize never consults
safetyViolations, it approves on `is_approved and critique_score >= 4`
(nodes.py line 301), and here the externally parsed score is 5. -/
theorem C4_counterexample :
    (runWorkflow envHallApprove 4 ("p1") ("s1")
      ("a mild question")).response_status = .approved ∧
    (runWorkflow envHallApprove 4 ("p1") ("s1")
      ("a mild question")).safety_violations ≠ [] ∧
    (runWorkflow envHallApprove 4 ("p1") ("s1")
      ("a mild question")).is_error = false ∧
    (runWorkflow envHallApprove 4 ("p1") ("s1")
      ("a mild question")).triage_level ≠ some TriageLevel.emergency := by
  decide

/-- C4 amended: Finalize derives the status as ERROR if isError, else
APPROVED if the triage level is EMERGENCY or if `is_approved` holds and
critiqueScore is at least the literal 4, else ESCALATED — without
consulting safetyViolations, whose value never changes the derived
status. -/
theorem C4_finalize_derivation (env : Env) (s : AgentState)
    (hp : env.persistRaises = false) :
    ((MemoryNode.execute env s).response_status =
      (if s.is_error then ResponseStatus.error
       else if s.triage_level = some TriageLevel.emergency then .approved
       else if s.is_approved && decide ((4 : Int) ≤ s.critique_score) then
         .approved
       else .escalated)) ∧
    ∀ v : List String,
      (MemoryNode.execute env
        { s with safety_violations := v }).response_status =
        (MemoryNode.execute env s).response_status := by
  have key : ∀ t : AgentState,
      (MemoryNode.execute env t).response_status =
        (if t.is_error then ResponseStatus.error
         else if t.triage_level = some TriageLevel.emergency then .approved
         else if t.is_approved && decide ((4 : Int) ≤ t.critique_score) then
           .approved
         else .escalated) := by
    intro t
    simp only [MemoryNode.execute, hp]
    split_ifs <;> simp_all
  exact ⟨key s, fun v => by rw [key _, key s]⟩

/-- Witness for the amended C4 at a concrete violation-carrying state:
the derivation formula gives APPROVED, and emptying the violations list
does not change the derived status. -/
theorem C4_witness :
    (MemoryNode.execute envBase
      { stateHall with
        safety_violations := ["HALLUCINATION: imaginex"],
        critique_score := 5, is_approved := true }).response_status =
      .approved ∧
    (MemoryNode.execute envBase
      { stateHall with
        safety_violations := [],
        critique_score := 5, is_approved := true }).response_status =
      .approved := by
  have h := C4_finalize_derivation envBase
    { stateHall with
      safety_violations := ["HALLUCINATION: imaginex"],
      critique_score := 5, is_approved := true } rfl
  constructor
  · rw [h.1]; decide
  · have h2 := h.2 []
    rw [h2, h.1]; decide

/-- Counterexample to C8 as stated: a critique pass in which the scoring
output is unparseable and a hallucination violation was detected in that
pass, yet the fallback score is 4, not 2 — the fallback at nodes.py lines
260-266 tests only `response_safe and contraindication_safe` and ignores
hallucination violations; the parse failure sets no error. -/
theorem C8_counterexample :
    (CriticNode.execute envHallNoParse 4 0 stateHall).safety_violations ≠
      [] ∧
    (CriticNode.execute envHallNoParse 4 0 stateHall).critique_score = 4 ∧
    (CriticNode.execute envHallNoParse 4 0 stateHall).is_error = false := by
  decide

/-- C8 amended: whenever the scoring output is unparseable on a
non-emergency, contraindication-free critique pass, the fallback score is
4 exactly when the dangerous-phrase/score validation passed (hallucination
violations do not lower the fallback), else 2; the parse failure leaves
isError unchanged (it is recovered locally, never surfaced as an
error). -/
theorem C8_fallback_score (env : Env) (m : Int) (r : Nat) (s : AgentState)
    (ht : s.triage_level ≠ some TriageLevel.emergency)
    (hc : (SafetyGuardrail.check_contraindications
      (s.draft_response.getD ("")) s.patient_context.medical_history
      s.patient_context.medications).1 = true)
    (hp : env.critiqueParse r = none) :
    (CriticNode.execute env m r s).critique_score =
      (if (SafetyGuardrail.validate_response (s.draft_response.getD ("")) 4
        m).1 then 4 else 2) ∧
    (CriticNode.execute env m r s).is_error = s.is_error := by
  refine ⟨?_, crit_is_error_eq env m r s⟩
  simp only [CriticNode.execute]
  split
  next h1 => exact absurd h1 ht
  next h1 =>
    split
    next h2 => rw [hc] at h2; simp at h2
    next h2 => simp [hp, hc]

/-- Witness for the amended C8 at the concrete unparseable-scoring pass
with a hallucination violation: validation passes, so the fallback is
4. -/
theorem C8_witness :
    (CriticNode.execute envHallNoParse 4 0 stateHall).critique_score =
      (if (SafetyGuardrail.validate_response
        (stateHall.draft_response.getD ("")) 4 4).1 then 4 else 2) ∧
    (CriticNode.execute envHallNoParse 4 0 stateHall).is_error =
      stateHall.is_error :=
  C8_fallback_score envHallNoParse 4 0 stateHall (by decide) (by decide) rfl

/-- Refined collaborators whose scoring reply parses with a non-numeric
score at every round (for example a JSON object whose score field is the
string "5"), over an innocuous draft. -/
def envRBadScore : EnvR :=
  { maskPII := fun t => t,
    patientProfile := fun _ => {},
    retrieve := fun _ => [],
    generate := fun _ => ("rest and hydration", false),
    critiqueParse := fun _ => .nonNumericScore,
    persistRaises := false }

/-- Refined well-behaved collaborators: a numeric score 5 each round. -/
def envRBase : EnvR :=
  { maskPII := fun t => t,
    patientProfile := fun _ => {},
    retrieve := fun _ => [],
    generate := fun _ => ("rest and hydration", false),
    critiqueParse := fun _ => .parsed 5 ("fine"),
    persistRaises := false }

/-- The fixed point of the stuck refine cycle under `envRBadScore`: the
state entering every critic pass after the first cycle. -/
def stuckState : AgentState :=
  { patient_id := "p1", session_id := "s1", user_input := "a mild question",
    triage_level := some .routine,
    draft_response := some ("rest and hydration"),
    critique_score := 2,
    critique_feedback := some ("Critique error: " ++ typeErrorMessage),
    is_approved := false }

/-- Under `envRBadScore` the critic/refine loop never reaches Finalize:
`stuckState` is a fixed point of the critic-gate-actor cycle at every
fuel and every round, so the iteration cap never fires and no terminal
status is ever assigned — the source loop, which has no fuel, refines
forever. -/
theorem nonNumericScore_loop_never_finalizes :
    ∀ fuel r, workflowLoopR envRBadScore 4 fuel r stuckState =
      stuckState := by
  intro fuel
  induction fuel with
  | zero => intro r; rfl
  | succ f ih =>
    intro r
    have hcrit : CriticNodeR.execute envRBadScore 4 r stuckState =
        stuckState := rfl
    have hgate : PARMGraphWorkflow.should_refine 4 stuckState =
        .refine := by decide
    have hact : ActorNode.execute (EnvR.toEnv envRBadScore) (r + 1)
        stuckState = stuckState := rfl
    simp only [workflowLoopR, hcrit, hgate, hact]
    exact ih (r + 1)

/-- Counterexample to C2 as stated: under a scoring collaborator whose
reply parses with a non-numeric score every round (permitted by the
Generate contract of spec section 6), a run observed for 10 critique
passes still has responseStatus pending and reflectionIterations 0 — no
terminal status within 3 critique passes, no increment on any pass, and
by `nonNumericScore_loop_never_finalizes` the cap of rule 4 can never
fire: the comparison at nodes.py line 269 raises TypeError into the
outer except of lines 274-278, which skips the increment at line 272
every pass. -/
theorem C2_counterexample :
    runCritiquePassesR envRBadScore 4 10 ("p1") ("s1")
      ("a mild question") = 10 ∧
    (runWorkflowR envRBadScore 4 10 ("p1") ("s1")
      ("a mild question")).response_status = .pending ∧
    (runWorkflowR envRBadScore 4 10 ("p1") ("s1")
      ("a mild question")).reflection_iterations = 0 ∧
    (runWorkflowR envRBadScore 4 10 ("p1") ("s1")
      ("a mild question")).triage_level = some TriageLevel.routine := by
  decide

/-- C2 amended, over the refined scoring model: (i) 0 ≤
reflectionIterations ≤ 3 holds at every observed state of every run,
unconditionally; (ii) when no critique pass parses a non-numeric score,
every run reaches a terminal status within 3 critique passes (for any
loop budget of at least 4); (iii) a Critique pass increments the counter
exactly once iff it completes scoring — (iv) a pass whose scoring reply
parses to a non-numeric score takes the outer exception handler, leaving
the counter unchanged with score 2 and the approval flag cleared, so the
gate refines again and such runs never terminate (`C2_counterexample`,
`nonNumericScore_loop_never_finalizes`); emergency and contraindication
short-circuits also leave the counter unchanged but exit the loop at
once. -/
theorem C2_iteration_bound_and_termination (env : EnvR) (m : Int)
    (fuel : Nat) (pid sid input : String) :
    (∀ x ∈ runTraceR env m fuel pid sid input,
      x.reflection_iterations ≤ 3) ∧
    ((∀ r, env.critiqueParse r ≠ .nonNumericScore) → 4 ≤ fuel →
      (((runWorkflowR env m fuel pid sid input).response_status =
          .approved ∨
        (runWorkflowR env m fuel pid sid input).response_status =
          .escalated ∨
        (runWorkflowR env m fuel pid sid input).response_status =
          .error) ∧
       runCritiquePassesR env m fuel pid sid input ≤ 3)) ∧
    (∀ r (s : AgentState), s.triage_level ≠ some TriageLevel.emergency →
      (SafetyGuardrail.check_contraindications (s.draft_response.getD (""))
        s.patient_context.medical_history
        s.patient_context.medications).1 = true →
      env.critiqueParse r ≠ .nonNumericScore →
      (CriticNodeR.execute env m r s).reflection_iterations =
        s.reflection_iterations + 1) ∧
    (∀ r (s : AgentState), s.triage_level ≠ some TriageLevel.emergency →
      (SafetyGuardrail.check_contraindications (s.draft_response.getD (""))
        s.patient_context.medical_history
        s.patient_context.medications).1 = true →
      env.critiqueParse r = .nonNumericScore →
      ((CriticNodeR.execute env m r s).reflection_iterations =
        s.reflection_iterations ∧
       (CriticNodeR.execute env m r s).critique_score = 2 ∧
       (CriticNodeR.execute env m r s).is_approved = false)) := by
  have hps : (ActorNode.execute (EnvR.toEnv env) 0
      (PlannerNode.execute (EnvR.toEnv env)
        (initState pid sid input))).reflection_iterations = 0 := by
    rw [actor_iter_eq]; rfl
  refine ⟨?_, ?_, ?_, ?_⟩
  · intro x hx
    simp only [runTraceR, List.mem_cons] at hx
    rcases hx with hx | hx | hx | hx
    · subst hx; simp [initState]
    · subst hx; simp [planner_iter_zero]
    · subst hx; omega
    · exact workflowLoopTraceR_iter env m fuel 0 _ (by omega) x hx
  · intro hno hfuel
    constructor
    · simp only [runWorkflowR]
      rw [workflowLoopR_bridge env m hno]
      exact workflowLoop_terminal (EnvR.toEnv env) m fuel 0 _ (by omega)
        (by rw [hps]; omega)
    · simp only [runCritiquePassesR]
      rw [workflowLoopPassesR_bridge env m hno]
      have := workflowLoopPasses_le (EnvR.toEnv env) m fuel 0
        (ActorNode.execute (EnvR.toEnv env) 0 (PlannerNode.execute
          (EnvR.toEnv env) (initState pid sid input))) (by omega)
      omega
  · intro r s ht hc hq
    exact critR_iter_full_pass env m r s ht hc hq
  · intro r s ht hc hq
    exact critR_nonNumeric env m r s ht hc hq

/-- Witness for the amended C2: the well-behaved refined run terminates
within 3 passes; a concrete full-scoring pass increments the counter by
exactly one; and a concrete non-numeric-score pass leaves it
unchanged. -/
theorem C2_witness :
    ((runWorkflowR envRBase 4 4 ("p1") ("s1")
        ("a mild question")).response_status = .approved ∨
     (runWorkflowR envRBase 4 4 ("p1") ("s1")
        ("a mild question")).response_status = .escalated ∨
     (runWorkflowR envRBase 4 4 ("p1") ("s1")
        ("a mild question")).response_status = .error) ∧
    runCritiquePassesR envRBase 4 4 ("p1") ("s1")
      ("a mild question") ≤ 3 ∧
    (CriticNodeR.execute envRBase 4 0 stateBenign).reflection_iterations =
      stateBenign.reflection_iterations + 1 ∧
    (CriticNodeR.execute envRBadScore 4 0
      stateBenign).reflection_iterations =
      stateBenign.reflection_iterations := by
  have h1 := C2_iteration_bound_and_termination envRBase 4 4 ("p1")
    ("s1") ("a mild question")
  have h2 := C2_iteration_bound_and_termination envRBadScore 4 4 ("p1")
    ("s1") ("a mild question")
  have hno : ∀ r, envRBase.critiqueParse r ≠
      CritiqueOutcome.nonNumericScore := fun r h =>
    CritiqueOutcome.noConfusion h
  refine ⟨(h1.2.1 hno (by decide)).1, (h1.2.1 hno (by decide)).2,
    h1.2.2.1 0 stateBenign (by decide) (by decide) (hno 0),
    (h2.2.2.2 0 stateBenign (by decide) (by decide) (by decide)).1⟩

/-- C5: from any state entering a non-emergency Critique pass in which
the ContraindicationChecker fires (returns safe=false), the remainder of
the run never finalizes APPROVED: the critic records the violation with
score 1 and a false approval flag, the gate exits the loop at once, and
Finalize yields ESCALATED (or ERROR under a set error flag or a failing
persistence call). -/
theorem C5_contraindication_never_approved (env : Env) (m : Int)
    (fuel r : Nat) (s : AgentState)
    (ht : s.triage_level ≠ some TriageLevel.emergency)
    (hc : (SafetyGuardrail.check_contraindications
      (s.draft_response.getD ("")) s.patient_context.medical_history
      s.patient_context.medications).1 = false) :
    (workflowLoop env m (fuel + 1) r s).response_status ≠ .approved := by
  have hshape : CriticNode.execute env m r s =
      { s with
        safety_violations := [(SafetyGuardrail.check_contraindications
          (s.draft_response.getD ("")) s.patient_context.medical_history
          s.patient_context.medications).2],
        critique_score := 1,
        critique_feedback := some ("CONTRAINDICATION DETECTED: "
          ++ (SafetyGuardrail.check_contraindications
            (s.draft_response.getD ("")) s.patient_context.medical_history
            s.patient_context.medications).2),
        is_approved := false } := by
    simp only [CriticNode.execute, if_neg ht, hc]
    simp
  have hv : (CriticNode.execute env m r s).safety_violations ≠ [] := by
    rw [hshape]; simp
  have hgate := gate_approve_of_violations m _ hv
  simp only [workflowLoop, hgate]
  cases he : s.is_error
  case false =>
    have hesc := memory_status_escalated env (CriticNode.execute env m r s)
      (by rw [crit_is_error_eq]; exact he)
      (by rw [crit_triage_eq]; exact ht)
      (by rw [hshape])
    rcases hesc with h | h <;> simp [h]
  case true =>
    have herr := memory_status_of_error env (CriticNode.execute env m r s)
      (by rw [crit_is_error_eq]; exact he)
    simp [herr]

/-- Witness for C5 at the concrete NSAID-asthma state. -/
theorem C5_witness :
    (workflowLoop envBase 4 4 0 stateContra).response_status ≠
      .approved :=
  C5_contraindication_never_approved envBase 4 3 0 stateContra
    (by decide) (by decide)

/-- C6: in every run, if any observed state has isError set, the run
finalizes with the ERROR status.  (The Plan step itself cannot set
isError — its collaborator wrappers catch failures internally and a
failed lookup yields an error dictionary instead — so the flag is only
ever set by the Act step, after which the gate approves on rule 1 before
any node that could overwrite the flag runs again.) -/
theorem C6_error_sticky (env : Env) (m : Int) (pid sid input : String)
    (x : AgentState) (hx : x ∈ runTrace env m pid sid input)
    (he : x.is_error = true) :
    (runWorkflow env m pid sid input).response_status = .error := by
  have hps : (ActorNode.execute env 0 (PlannerNode.execute env
      (initState pid sid input))).reflection_iterations = 0 := by
    rw [actor_iter_eq]; rfl
  simp only [runTrace, List.mem_cons] at hx
  simp only [runWorkflow]
  rcases hx with hx | hx | hx | hx
  · rw [hx] at he
    simp [initState] at he
  · rw [hx, planner_is_error_eq] at he
    simp [initState] at he
  · exact workflowLoop_of_error env m loopFuel 0 _ (by decide) (hx ▸ he)
  · exact workflowLoopTrace_error env m loopFuel 0 _ (by decide)
      (by rw [hps]; decide) x hx he

/-- Witness for C6: a run whose generation call fails has the post-Act
state carrying the error flag in its trace, and finalizes as ERROR. -/
theorem C6_witness :
    (runWorkflow envGenFail 4 ("p1") ("s1")
      ("a mild question")).response_status = .error :=
  C6_error_sticky envGenFail 4 ("p1") ("s1") ("a mild question")
    (ActorNode.execute envGenFail 0 (PlannerNode.execute envGenFail
      (initState ("p1") ("s1") ("a mild question"))))
    (by simp [runTrace]) (by decide)

/-- C7: for every run whose input carries an EMERGENCY keyword when
triage sees it (the workflow classifies the PII-masked input, and the
masking collaborator — spec section 6 — returns the input unchanged when
it detects no PII), the triage level is EMERGENCY with confidence 0.95,
the final response is exactly the fixed canned emergency text (a constant
independent of the generation collaborator, hence never LLM-authored)
which contains 911, reflectionIterations is 0 at termination, and the
run finalizes approved (persistence succeeding). -/
theorem C7_emergency_canned (env : Env) (m : Int) (pid sid input : String)
    (hp : env.persistRaises = false)
    (hk : SafetyGuardrail.EMERGENCY_KEYWORDS.any
      (fun k => substrMem k (pyLower (env.maskPII input))) = true) :
    (runWorkflow env m pid sid input).triage_level =
      some TriageLevel.emergency ∧
    (runWorkflow env m pid sid input).triage_confidence = 95/100 ∧
    (runWorkflow env m pid sid input).final_response =
      some SafetyGuardrail.get_emergency_response ∧
    substrMem ("911") SafetyGuardrail.get_emergency_response = true ∧
    (runWorkflow env m pid sid input).reflection_iterations = 0 ∧
    (runWorkflow env m pid sid input).response_status = .approved := by
  have hcl : SafetyGuardrail.classify_triage (env.maskPII input) =
      .emergency := classify_emergency_of_keyword _ hk
  have h1 : (PlannerNode.execute env
      (initState pid sid input)).triage_level =
      some TriageLevel.emergency := by
    show some (SafetyGuardrail.classify_triage (env.maskPII input)) =
      some TriageLevel.emergency
    rw [hcl]
  have h1c : (PlannerNode.execute env
      (initState pid sid input)).triage_confidence = 95/100 := by
    show triage_confidence_of
      (SafetyGuardrail.classify_triage (env.maskPII input)) = 95/100
    rw [hcl]
    rfl
  have h2 : ActorNode.execute env 0 (PlannerNode.execute env
      (initState pid sid input)) =
      { PlannerNode.execute env (initState pid sid input) with
        draft_response := some SafetyGuardrail.get_emergency_response,
        generation_rationale :=
          some ("Emergency detected - using hard-coded response") } := by
    simp [ActorNode.execute, h1]
  have ht2 : (ActorNode.execute env 0 (PlannerNode.execute env
      (initState pid sid input))).triage_level =
      some TriageLevel.emergency := by
    rw [actor_triage_eq]; exact h1
  have h3 : CriticNode.execute env m 0 (ActorNode.execute env 0
      (PlannerNode.execute env (initState pid sid input))) =
      { ActorNode.execute env 0 (PlannerNode.execute env
          (initState pid sid input)) with
        critique_score := 5,
        critique_feedback := some ("Emergency response - safety verified"),
        is_approved := true } := by
    simp [CriticNode.execute, ht2]
  have ht3 : (CriticNode.execute env m 0 (ActorNode.execute env 0
      (PlannerNode.execute env (initState pid sid input)))).triage_level =
      some TriageLevel.emergency := by
    rw [crit_triage_eq]; exact ht2
  have he3 : (CriticNode.execute env m 0 (ActorNode.execute env 0
      (PlannerNode.execute env (initState pid sid input)))).is_error =
      false := by
    rw [crit_is_error_eq, h2]
    show (PlannerNode.execute env (initState pid sid input)).is_error =
      false
    rw [planner_is_error_eq]
    rfl
  have hg : PARMGraphWorkflow.should_refine m (CriticNode.execute env m 0
      (ActorNode.execute env 0 (PlannerNode.execute env
        (initState pid sid input)))) = .approve := by
    simp [PARMGraphWorkflow.should_refine, he3, ht3]
  have hrun : runWorkflow env m pid sid input =
      MemoryNode.execute env (CriticNode.execute env m 0
        (ActorNode.execute env 0 (PlannerNode.execute env
          (initState pid sid input)))) := by
    show workflowLoop env m (3 + 1) 0 (ActorNode.execute env 0
      (PlannerNode.execute env (initState pid sid input))) = _
    simp only [workflowLoop, hg]
  have hmem : (MemoryNode.execute env (CriticNode.execute env m 0
      (ActorNode.execute env 0 (PlannerNode.execute env
        (initState pid sid input))))).response_status = .approved ∧
      (MemoryNode.execute env (CriticNode.execute env m 0
        (ActorNode.execute env 0 (PlannerNode.execute env
          (initState pid sid input))))).final_response =
        (CriticNode.execute env m 0 (ActorNode.execute env 0
          (PlannerNode.execute env
            (initState pid sid input)))).draft_response := by
    simp [MemoryNode.execute, he3, ht3, hp]
  rw [hrun]
  refine ⟨?_, ?_, ?_, by decide, ?_, hmem.1⟩
  · rw [memory_triage_eq]
    exact ht3
  · rw [memory_conf_eq, crit_conf_eq, h2]
    show (PlannerNode.execute env
      (initState pid sid input)).triage_confidence = 95/100
    exact h1c
  · rw [hmem.2, crit_draft_eq, h2]
  · rw [memory_iter_eq, h3]
    show (ActorNode.execute env 0 (PlannerNode.execute env
      (initState pid sid input))).reflection_iterations = 0
    rw [actor_iter_eq, planner_iter_zero]

/-- Witness for C7 at the scenario input with identity masking and
working persistence. -/
theorem C7_witness :
    (runWorkflow envBase 4 ("p1") ("s1")
      ("chest pain, shortness of breath")).final_response =
      some SafetyGuardrail.get_emergency_response ∧
    (runWorkflow envBase 4 ("p1") ("s1")
      ("chest pain, shortness of breath")).triage_confidence = 95/100 ∧
    (runWorkflow envBase 4 ("p1") ("s1")
      ("chest pain, shortness of breath")).reflection_iterations = 0 := by
  have h := C7_emergency_canned envBase 4 ("p1") ("s1")
    ("chest pain, shortness of breath") rfl (by decide)
  exact ⟨h.2.2.1, h.2.1, h.2.2.2.2.1⟩

end NeuroTriage
